import Mathlib

/-!
Verification of `generate_icons.py`: a utility that draws a placeholder
health-themed app icon (a white cross on a sea-green square with a darker
green border) and writes it as PNG at 17 fixed sizes into a fixed directory.

The script is embedded shallowly:
* an image is a `PILImage`: width, height and a total pixel function;
* `draw.rectangle([x0,y0,x1,y1], fill=c)` paints the rectangle inclusive of
  both corner points (Pillow's documented semantics) — `rectFill`;
* `draw.rectangle(..., outline=c, width=w)` paints four strips of thickness
  `w` along the inside of the (inclusive) rectangle — `rectOutline`;
* `img.save(path, 'PNG')` is modelled as a write into an explicit filesystem
  state `FS`; the PNG encoder is modelled as a deterministic serialization
  `pngEncode` of the pixel data (Pillow's PNG output for fixed options is a
  pure function of the image); the save fails when the parent directory of
  the target path does not exist;
* the batch driver `main` folds over the hardcoded size table, stopping at
  the first failed save, as the unhandled Python exception would.
-/

namespace GenerateIcons

/-- An RGB color, one `Nat` per channel. -/
structure Color where
  r : Nat
  g : Nat
  b : Nat
deriving DecidableEq

/-- `'#2E8B57'`, the sea-green background fill of line 13. -/
def seaGreen : Color := ⟨0x2E, 0x8B, 0x57⟩

/-- `'white'`, the fill color of the two cross bars. -/
def white : Color := ⟨255, 255, 255⟩

/-- `'#1F5F3F'`, the darker green border outline color of line 38. -/
def borderGreen : Color := ⟨0x1F, 0x5F, 0x3F⟩

/-- A raster image: dimensions plus a total pixel function (coordinates
outside the canvas are irrelevant; claims always bound them). -/
structure PILImage where
  width : Nat
  height : Nat
  pix : Nat → Nat → Color

/-- `Image.new('RGB', (w, h), color=c)`: a `w × h` canvas uniformly `c`. -/
def Image_new (w h : Nat) (c : Color) : PILImage :=
  ⟨w, h, fun _ _ => c⟩

/-- `draw.rectangle([x0, y0, x1, y1], fill=c)`: paints every pixel with
`x0 ≤ x ≤ x1` and `y0 ≤ y ≤ y1` (both endpoints included, per Pillow). -/
def rectFill (x0 y0 x1 y1 : Nat) (c : Color) (img : PILImage) : PILImage :=
  { img with pix := fun x y =>
      if x0 ≤ x ∧ x ≤ x1 ∧ y0 ≤ y ∧ y ≤ y1 then c else img.pix x y }

/-- `draw.rectangle([x0, y0, x1, y1], outline=c, width=w)`: Pillow draws the
outline as four filled strips of thickness `w` just inside the inclusive
rectangle (top, bottom, left, right). -/
def rectOutline (x0 y0 x1 y1 w : Nat) (c : Color) (img : PILImage) : PILImage :=
  rectFill x0 y0 x1 (y0 + w - 1) c
    (rectFill x0 (y1 + 1 - w) x1 y1 c
      (rectFill x0 y0 (x0 + w - 1) y1 c
        (rectFill (x1 + 1 - w) y0 x1 y1 c img)))

/-- Line 13: the freshly allocated square canvas, filled with the background. -/
def iconCanvas (size : Nat) : PILImage :=
  Image_new size size seaGreen

/-- Lines 17–25: the canvas after the vertical bar of the cross is painted. -/
def vertBarImage (size : Nat) : PILImage :=
  let cross_width := size / 8
  let cross_height := size / 2
  let left := (size - cross_width) / 2
  let top := (size - cross_height) / 2
  let right := left + cross_width
  let bottom := top + cross_height
  rectFill left top right bottom white (iconCanvas size)

/-- Lines 28–34: the canvas after the horizontal bar is painted on top. -/
def crossImage (size : Nat) : PILImage :=
  let cross_width_h := size / 2
  let cross_height_h := size / 8
  let left_h := (size - cross_width_h) / 2
  let top_h := (size - cross_height_h) / 2
  let right_h := left_h + cross_width_h
  let bottom_h := top_h + cross_height_h
  rectFill left_h top_h right_h bottom_h white (vertBarImage size)

/-- Lines 37–38: the finished icon, after the border stroke of width
`max 1 (size / 40)` is drawn over everything. The drawing part of
`create_icon` (the spec's Icon Generator geometry algorithm). -/
def render_icon (size : Nat) : PILImage :=
  let border_width := max 1 (size / 40)
  rectOutline 0 0 (size - 1) (size - 1) border_width borderGreen (crossImage size)

/-- The PNG encoder, modelled as a deterministic serialization of the image:
dimensions followed by the row-major RGB pixel stream. Pillow's PNG writer
with fixed options is a pure function of exactly this data. -/
def pngEncode (img : PILImage) : List Nat :=
  img.width :: img.height ::
    (List.range img.height).flatMap (fun y =>
      (List.range img.width).flatMap (fun x =>
        [(img.pix x y).r, (img.pix x y).g, (img.pix x y).b]))

/-- The single error kind of the script: a filesystem failure raised by
`img.save` (e.g. the target's directory does not exist). -/
inductive SaveError where
  | fileNotFound
deriving DecidableEq

/-- Filesystem state: the set of existing directories, and the files as an
ordered list of (path, content) pairs, each path listed once. -/
structure FS where
  dirs : List String
  files : List (String × List Nat)

/-- `os.path.join(d, f)` for a directory path without trailing slash. -/
def os_path_join (d f : String) : String :=
  d ++ "/" ++ f

/-- The directory component of a path: everything before the last `/`
(empty when there is no slash). -/
def os_path_dirname (p : String) : String :=
  ⟨((p.data.reverse.dropWhile (fun c => ¬(c = '/'))).drop 1).reverse⟩

/-- `img.save(output_path, 'PNG')` (line 41): writes the encoded bytes at
`output_path`, replacing any file already there; raises a filesystem error
when the containing directory does not exist. -/
def save (img : PILImage) (path : String) (fs : FS) : Except SaveError FS :=
  if os_path_dirname path ∈ fs.dirs then
    .ok { fs with
          files := fs.files.filter (fun e => !(e.1 == path)) ++ [(path, pngEncode img)] }
  else
    .error .fileNotFound

/-- `create_icon(size, output_path)` (lines 10–42): render the icon and save
it, threading the filesystem state. -/
def create_icon (size : Nat) (output_path : String) (fs : FS) : Except SaveError FS :=
  save (render_icon size) output_path fs

/-- Line 46: the hardcoded output directory. -/
def icon_dir : String :=
  "/Users/rob/Scripts/Personal/apple-health-export/HealthExporter/Assets.xcassets/AppIcon.appiconset"

/-- Lines 49–67: the fixed ordered table of (pixel size, filename) pairs. -/
def icon_sizes : List (Nat × String) :=
  [(40, "icon_20pt@2x.png"),
   (60, "icon_20pt@3x.png"),
   (58, "icon_29pt@2x.png"),
   (87, "icon_29pt@3x.png"),
   (80, "icon_40pt@2x.png"),
   (120, "icon_40pt@3x.png"),
   (120, "icon_60pt@2x.png"),
   (180, "icon_60pt@3x.png"),
   (20, "icon_20pt.png"),
   (40, "icon_20pt@2x_ipad.png"),
   (29, "icon_29pt.png"),
   (58, "icon_29pt@2x_ipad.png"),
   (40, "icon_40pt.png"),
   (80, "icon_40pt@2x_ipad.png"),
   (152, "icon_76pt@2x.png"),
   (167, "icon_83.5pt@2x.png"),
   (1024, "icon_1024pt.png")]

/-- The `for` loop of lines 69–71: generate the icons in order; an error
from `create_icon` propagates unhandled, aborting the rest of the batch.
Returns the filesystem as left behind, and the error if one was raised. -/
def runBatch : List (Nat × String) → FS → FS × Option SaveError
  | [], fs => (fs, none)
  | (size, filename) :: rest, fs =>
    match create_icon size (os_path_join icon_dir filename) fs with
    | .ok fs1 => runBatch rest fs1
    | .error e => (fs, some e)

/-- `main()` (lines 44–74), with the filesystem state explicit. -/
def main (fs : FS) : FS × Option SaveError :=
  runBatch icon_sizes fs

/-- Read a file's content from the filesystem state. -/
def readFile (fs : FS) (p : String) : Option (List Nat) :=
  ((fs.files.filter (fun e => e.1 == p)).map Prod.snd).getLast?

/-- The expected result of one full batch run from an empty directory:
each table entry's path paired with the encoding of its rendered icon. -/
def expectedFiles : List (String × List Nat) :=
  icon_sizes.map (fun p => (os_path_join icon_dir p.2, pngEncode (render_icon p.1)))

/-- Measured thickness of the painted vertical bar: how many columns hold a
white pixel in its top row `(size - size/2)/2`. -/
def vertBarWidth (size : Nat) : Nat :=
  ((Finset.range size).filter
    (fun x => (vertBarImage size).pix x ((size - size / 2) / 2) = white)).card

/-- Measured height of the painted vertical bar: how many rows hold a white
pixel in its left column `(size - size/8)/2`. -/
def vertBarHeight (size : Nat) : Nat :=
  ((Finset.range size).filter
    (fun y => (vertBarImage size).pix ((size - size / 8) / 2) y = white)).card

/-- Any pixel of the finished icon lying in the outermost ring of width
`max 1 (size / 40)` has the border color: the border stroke is painted last,
over background and cross alike. Shared workhorse for the border claims. -/
lemma pix_ring_eq_borderGreen (size x y : Nat) (hs : 0 < size)
    (hx : x < size) (hy : y < size)
    (hring : x < max 1 (size / 40) ∨ y < max 1 (size / 40) ∨
      size - max 1 (size / 40) ≤ x ∨ size - max 1 (size / 40) ≤ y) :
    (render_icon size).pix x y = borderGreen := by
  have hw : 1 ≤ max 1 (size / 40) := le_max_left _ _
  generalize hwdef : max 1 (size / 40) = w at hw hring
  simp only [render_icon, rectOutline, rectFill, hwdef]
  split_ifs with h1 h2 h3 h4
  · rfl
  · rfl
  · rfl
  · rfl
  · exfalso
    omega

/-- C6: every pixel of the outermost ring of width `max 1 (size / 40)` of
the rendered icon equals the darker-green border color exactly. -/
theorem border_ring_exact (size x y : Nat) (hs : 0 < size)
    (hx : x < size) (hy : y < size)
    (hring : x < max 1 (size / 40) ∨ y < max 1 (size / 40) ∨
      size - max 1 (size / 40) ≤ x ∨ size - max 1 (size / 40) ≤ y) :
    (render_icon size).pix x y = borderGreen :=
  pix_ring_eq_borderGreen size x y hs hx hy hring

/-- Witness for C6: at size 40 the corner-adjacent pixel (0, 39) is exactly
the border color. -/
theorem border_ring_exact_witness : (render_icon 40).pix 0 39 = borderGreen :=
  border_ring_exact 40 0 39 (by decide) (by decide) (by decide)
    (Or.inl (by decide))

/-- C4: for `edge_length ≥ 8`, the rendered canvas has a non-background
pixel (already its top-left border pixel differs from the background). -/
theorem nonbackground_nonempty_of_ge_eight (size : Nat) (h : 8 ≤ size) :
    ∃ x ∈ Finset.range size, ∃ y ∈ Finset.range size,
      (render_icon size).pix x y ≠ seaGreen := by
  refine ⟨0, Finset.mem_range.mpr (by omega), 0, Finset.mem_range.mpr (by omega), ?_⟩
  rw [pix_ring_eq_borderGreen size 0 0 (by omega) (by omega) (by omega)
    (Or.inl (lt_of_lt_of_le Nat.one_pos (le_max_left _ _)))]
  decide

/-- Witness for C4: instantiated at size 8. -/
theorem nonbackground_nonempty_of_ge_eight_witness :
    ∃ x ∈ Finset.range 8, ∃ y ∈ Finset.range 8,
      (render_icon 8).pix x y ≠ seaGreen :=
  nonbackground_nonempty_of_ge_eight 8 (by decide)

/-- C9: for every `edge_length ≥ 1` — even below the spec's threshold 8 —
the icon has a non-background pixel, because the border stroke of width
`max 1 (size / 40) ≥ 1` in a color distinct from the background is always
drawn: pixel (0, 0) is the border color. -/
theorem border_always_visible (size : Nat) (h : 1 ≤ size) :
    (render_icon size).pix 0 0 = borderGreen ∧ borderGreen ≠ seaGreen ∧
      ∃ x ∈ Finset.range size, ∃ y ∈ Finset.range size,
        (render_icon size).pix x y ≠ seaGreen := by
  have h0 : (render_icon size).pix 0 0 = borderGreen :=
    pix_ring_eq_borderGreen size 0 0 (by omega) (by omega) (by omega)
      (Or.inl (lt_of_lt_of_le Nat.one_pos (le_max_left _ _)))
  refine ⟨h0, by decide, 0, Finset.mem_range.mpr (by omega),
    0, Finset.mem_range.mpr (by omega), ?_⟩
  rw [h0]
  decide

/-- Witness for C9: instantiated at size 1, below the spec's threshold. -/
theorem border_always_visible_witness :
    (render_icon 1).pix 0 0 = borderGreen ∧ borderGreen ≠ seaGreen ∧
      ∃ x ∈ Finset.range 1, ∃ y ∈ Finset.range 1,
        (render_icon 1).pix x y ≠ seaGreen :=
  border_always_visible 1 (by decide)

/-- C7: for `edge_length > 0` the canvas is exactly `size × size`, and the
freshly allocated canvas is uniformly the sea-green background color. -/
theorem canvas_dims_and_background (size : Nat) (_h : 0 < size) :
    (render_icon size).width = size ∧ (render_icon size).height = size ∧
      ∀ x y, (iconCanvas size).pix x y = seaGreen :=
  ⟨rfl, rfl, fun _ _ => rfl⟩

/-- Witness for C7: instantiated at size 40. -/
theorem canvas_dims_and_background_witness :
    (render_icon 40).width = 40 ∧ (render_icon 40).height = 40 ∧
      ∀ x y, (iconCanvas 40).pix x y = seaGreen :=
  canvas_dims_and_background 40 (by decide)

/-- Pointwise characterization of the canvas after the vertical-bar fill:
a pixel is white exactly when it lies in the inclusive rectangle painted by
line 25; everything else is still the background. -/
lemma vertBarImage_pix_eq_white (size x y : Nat) :
    (vertBarImage size).pix x y = white ↔
      ((size - size / 8) / 2 ≤ x ∧ x ≤ (size - size / 8) / 2 + size / 8 ∧
       (size - size / 2) / 2 ≤ y ∧ y ≤ (size - size / 2) / 2 + size / 2) := by
  simp only [vertBarImage, rectFill, iconCanvas, Image_new]
  split_ifs with hc
  · exact iff_of_true rfl hc
  · exact iff_of_false (by decide) hc

/-- C2 counterexample: at `edge_length = 8` the painted vertical bar is 2
pixels wide and 5 pixels tall, not the claimed `8 / 8 = 1` by `8 / 2 = 4`:
Pillow's rectangle includes both endpoints. -/
theorem vertical_bar_claim_false :
    vertBarWidth 8 = 2 ∧ vertBarHeight 8 = 5 ∧
      ¬(vertBarWidth 8 = 8 / 8 ∧ vertBarHeight 8 = 8 / 2) := by
  decide

/-- C2 amended: for positive `edge_length` the vertical bar is the inclusive
pixel rectangle spanning columns `(size - size/8)/2 .. (size - size/8)/2 + size/8`
and rows `(size - size/2)/2 .. (size - size/2)/2 + size/2`, filled white —
so its painted width is `size/8 + 1` and its height `size/2 + 1`, one pixel
more than the nominal centered `size/8 × size/2` extent. -/
theorem vertical_bar_geometry (size : Nat) (h : 0 < size) :
    (∀ x y, (vertBarImage size).pix x y = white ↔
      ((size - size / 8) / 2 ≤ x ∧ x ≤ (size - size / 8) / 2 + size / 8 ∧
       (size - size / 2) / 2 ≤ y ∧ y ≤ (size - size / 2) / 2 + size / 2)) ∧
    vertBarWidth size = size / 8 + 1 ∧ vertBarHeight size = size / 2 + 1 := by
  refine ⟨fun x y => vertBarImage_pix_eq_white size x y, ?_, ?_⟩
  · have hfil : (Finset.range size).filter
        (fun x => (vertBarImage size).pix x ((size - size / 2) / 2) = white) =
        Finset.Icc ((size - size / 8) / 2) ((size - size / 8) / 2 + size / 8) := by
      ext a
      simp only [Finset.mem_filter, Finset.mem_range, Finset.mem_Icc,
        vertBarImage_pix_eq_white]
      omega
    rw [vertBarWidth, hfil, Nat.card_Icc]
    omega
  · have hfil : (Finset.range size).filter
        (fun y => (vertBarImage size).pix ((size - size / 8) / 2) y = white) =
        Finset.Icc ((size - size / 2) / 2) ((size - size / 2) / 2 + size / 2) := by
      ext a
      simp only [Finset.mem_filter, Finset.mem_range, Finset.mem_Icc,
        vertBarImage_pix_eq_white]
      omega
    rw [vertBarHeight, hfil, Nat.card_Icc]
    omega

/-- Witness for the amended C2: instantiated at size 8. -/
theorem vertical_bar_geometry_witness :
    (∀ x y, (vertBarImage 8).pix x y = white ↔
      ((8 - 8 / 8) / 2 ≤ x ∧ x ≤ (8 - 8 / 8) / 2 + 8 / 8 ∧
       (8 - 8 / 2) / 2 ≤ y ∧ y ≤ (8 - 8 / 2) / 2 + 8 / 2)) ∧
    vertBarWidth 8 = 8 / 8 + 1 ∧ vertBarHeight 8 = 8 / 2 + 1 :=
  vertical_bar_geometry 8 (by decide)

/-- C3 counterexample: at `edge_length = 4 < 8` the bar thickness `4 / 8`
does round to 0, yet the finished icon still has a white cross pixel at
(2, 2): the inclusive rectangle paints a one-pixel-thick bar. -/
theorem degenerate_cross_claim_false :
    4 < 8 ∧ 4 / 8 = 0 ∧ (render_icon 4).pix 2 2 = white := by
  decide

/-- C3 amended: below `edge_length = 8` the bar thickness `size / 8` rounds
to 0, but the inclusive rectangle fill still paints a one-pixel-thick bar;
the finished icon shows white cross pixels for every `3 ≤ size < 8`, and
only for `size ≤ 2` is the cross invisible (fully overdrawn by the border). -/
theorem small_cross_visibility (size : Nat) (h : size < 8) :
    size / 8 = 0 ∧
    (3 ≤ size → ∃ x ∈ Finset.range size, ∃ y ∈ Finset.range size,
      (render_icon size).pix x y = white) ∧
    (size ≤ 2 → ∀ x ∈ Finset.range size, ∀ y ∈ Finset.range size,
      (render_icon size).pix x y ≠ white) := by
  interval_cases size <;> decide

/-- Witness for the amended C3: instantiated at size 4. -/
theorem small_cross_visibility_witness :
    4 / 8 = 0 ∧
    (3 ≤ 4 → ∃ x ∈ Finset.range 4, ∃ y ∈ Finset.range 4,
      (render_icon 4).pix x y = white) ∧
    (4 ≤ 2 → ∀ x ∈ Finset.range 4, ∀ y ∈ Finset.range 4,
      (render_icon 4).pix x y ≠ white) :=
  small_cross_visibility 4 (by decide)

/-- Entries surviving the overwrite filter of `save` never match the saved
path, so filtering for that path afterwards yields nothing. -/
lemma overwrite_filter_nil (l : List (String × List Nat)) (p : String) :
    ((l.filter (fun e => !(e.1 == p))).filter (fun e => e.1 == p)) = [] := by
  induction l with
  | nil => rfl
  | cons a t ih =>
    cases h : a.1 == p <;> simp [List.filter_cons, h, ih]

/-- After a successful `save`, reading the target path back returns exactly
the bytes of the encoded image, whatever the filesystem held before. -/
lemma readFile_after_save (img : PILImage) (path : String) (fs g : FS)
    (h : save img path fs = .ok g) :
    readFile g path = some (pngEncode img) := by
  rw [save] at h
  split at h
  · injection h with h1
    subst h1
    simp [readFile, List.filter_append, overwrite_filter_nil]
  · exact absurd h (by simp)

/-- C5: rendering is deterministic — whenever `create_icon` succeeds, the
bytes written are `pngEncode (render_icon size)`, a pure function of the
edge length alone; two runs (any paths, any prior filesystem states) leave
byte-identical contents at their target paths. -/
theorem render_deterministic (size : Nat) (p1 p2 : String) (fs1 fs2 g1 g2 : FS)
    (h1 : create_icon size p1 fs1 = .ok g1)
    (h2 : create_icon size p2 fs2 = .ok g2) :
    readFile g1 p1 = some (pngEncode (render_icon size)) ∧
      readFile g1 p1 = readFile g2 p2 := by
  have e1 := readFile_after_save (render_icon size) p1 fs1 g1 h1
  have e2 := readFile_after_save (render_icon size) p2 fs2 g2 h2
  exact ⟨e1, by rw [e1, e2]⟩

/-- Witness for C5: two saves of the size-3 icon into directory `d`. -/
theorem render_deterministic_witness :
    readFile ⟨["d"], [("d/f", pngEncode (render_icon 3))]⟩ "d/f" =
        some (pngEncode (render_icon 3)) ∧
      readFile ⟨["d"], [("d/f", pngEncode (render_icon 3))]⟩ "d/f" =
        readFile ⟨["d"], [("d/f", pngEncode (render_icon 3))]⟩ "d/f" :=
  render_deterministic 3 "d/f" "d/f" ⟨["d"], []⟩ ⟨["d"], []⟩
    ⟨["d"], [("d/f", pngEncode (render_icon 3))]⟩
    ⟨["d"], [("d/f", pngEncode (render_icon 3))]⟩ rfl rfl

/-- C8: when the hardcoded output directory does not exist, the very first
`create_icon` call raises a filesystem error, the batch stops there with
that error unhandled, and the filesystem is left untouched: zero files. -/
theorem missing_dir_aborts (fs : FS) (h : icon_dir ∉ fs.dirs) :
    create_icon 40 (os_path_join icon_dir "icon_20pt@2x.png") fs =
        .error .fileNotFound ∧
      main fs = (fs, some .fileNotFound) := by
  have hd : os_path_dirname (os_path_join icon_dir "icon_20pt@2x.png") = icon_dir := rfl
  have h1 : create_icon 40 (os_path_join icon_dir "icon_20pt@2x.png") fs =
      .error .fileNotFound := by
    unfold create_icon save
    simp only [hd]
    exact if_neg h
  refine ⟨h1, ?_⟩
  show runBatch icon_sizes fs = (fs, some .fileNotFound)
  rw [icon_sizes]
  simp only [runBatch]
  rw [h1]

/-- Witness for C8: run against an empty filesystem with no directories. -/
theorem missing_dir_aborts_witness :
    create_icon 40 (os_path_join icon_dir "icon_20pt@2x.png") ⟨[], []⟩ =
        .error .fileNotFound ∧
      main ⟨[], []⟩ = (⟨[], []⟩, some .fileNotFound) :=
  missing_dir_aborts ⟨[], []⟩ (by decide)

set_option maxRecDepth 8000 in
/-- C1: starting from a filesystem holding just the (empty) hardcoded output
directory, the batch run succeeds and produces exactly the 17 files of the
table, in the listed order, at 17 pairwise-distinct paths, each file the
encoding of a square icon whose width and height equal the listed size. -/
theorem batch_creates_all_icons :
    main ⟨[icon_dir], []⟩ = (⟨[icon_dir], expectedFiles⟩, none) ∧
      expectedFiles.length = 17 ∧
      (expectedFiles.map Prod.fst).Nodup ∧
      ∀ p ∈ icon_sizes,
        (render_icon p.1).width = p.1 ∧ (render_icon p.1).height = p.1 := by
  refine ⟨?_, ?_, ?_, ?_⟩
  · rfl
  · rfl
  · decide
  · decide

/-- Witness for C1: the 1024-pixel store icon from the table has square
dimensions 1024 × 1024. -/
theorem batch_creates_all_icons_witness :
    (render_icon 1024).width = 1024 ∧ (render_icon 1024).height = 1024 :=
  batch_creates_all_icons.2.2.2 (1024, "icon_1024pt.png") (by decide)

/-- C10 counterexample: pixel size 40 appears three times in the table
(`icon_20pt@2x.png`, `icon_20pt@2x_ipad.png`, `icon_40pt.png`), not twice
as the claim's parenthetical states. -/
theorem duplicate_sizes_claim_false :
    (icon_sizes.map Prod.fst).count 40 = 3 ∧
      ¬((icon_sizes.map Prod.fst).count 40 = 2) := by
  decide

set_option maxRecDepth 8000 in
/-- C10 amended: the 17 filenames of the table are pairwise distinct —
though pixel sizes 58, 80 and 120 each appear twice and size 40 appears
three times — hence the 17 output paths are distinct and a batch run never
overwrites a file it wrote earlier: the run from an empty directory ends
with one file per table entry. -/
theorem filenames_pairwise_distinct :
    (icon_sizes.map Prod.snd).Nodup ∧
      (icon_sizes.map (fun p => os_path_join icon_dir p.2)).Nodup ∧
      icon_sizes.length = 17 ∧
      (icon_sizes.map Prod.fst).count 40 = 3 ∧
      (icon_sizes.map Prod.fst).count 58 = 2 ∧
      (icon_sizes.map Prod.fst).count 80 = 2 ∧
      (icon_sizes.map Prod.fst).count 120 = 2 ∧
      (main ⟨[icon_dir], []⟩).1.files.length = icon_sizes.length := by
  exact ⟨by decide, by decide, rfl, by decide, by decide, by decide, by decide, rfl⟩

end GenerateIcons
